import Mathlib

/-
Shallow embedding of the data-collection pipeline in
`src/pulling_data_async.py` (with the near-duplicate synchronous variant
`src/pulling_data.py` where the claims reference it).

Modelling conventions:
* An HTTP fetch's outcome is a `FetchResult β`: either `exn msg` (the request
  or body parsing raised an exception) or `resp status body` (a completed
  response with the given status code and, for convenience, an already
  decoded body of the success shape; for non-200 statuses the body is
  irrelevant and never inspected by the code).
* Python dict lookups with `.get` become `Option` fields; a key that a code
  path never sets is the field value `none`.
* Functions that can raise (Python exceptions propagating out of the
  function) return `Except String α`; total functions return `α` directly.
* `asyncio.gather` over coroutines that only raise-or-return is modelled by
  sequencing in the `Except` monad: the gathered result exists exactly when
  every component succeeds, and any raised exception aborts the whole group.
-/

namespace PullingDataAsync

/-- Outcome of one HTTP request: an exception raised during the request or
body decoding, or a completed response with a status code and decoded body. -/
inductive FetchResult (β : Type) where
  | exn (msg : String)
  | resp (status : Nat) (body : β)
deriving Repr, DecidableEq

/-! Market values: `get_player_market_values` (src/pulling_data_async.py
lines 109-137; same logic in src/pulling_data.py lines 117-141). -/

/-- Result of `pd.to_datetime(entry["date"])`: the parsed calendar date.
Only `year` and `month` are read by the code. -/
structure MVDate where
  year : Nat
  month : Nat
  day : Nat
deriving Repr, DecidableEq

/-- Two-digit zero padding, the Lean counterpart of Python's `:02` format
specifier on the values `% 100` (which are at most 99). -/
def pad2 (n : Nat) : String :=
  if n < 10 then "0" ++ toString n else toString n

/-- Season string built by `get_player_market_values` from a parsed date:
`f"{(date.year - 1) % 100:02}/{date.year % 100:02}"` when `date.month < 7`,
else `f"{date.year % 100:02}/{(date.year + 1) % 100:02}"`. -/
def seasonOfDate (date : MVDate) : String :=
  if date.month < 7 then
    pad2 ((date.year - 1) % 100) ++ "/" ++ pad2 (date.year % 100)
  else
    pad2 (date.year % 100) ++ "/" ++ pad2 ((date.year + 1) % 100)

/-- One element of the provider's `marketValueHistory` array. `date` is
required (`entry["date"]` would raise `KeyError` if absent; we model the
well-formed provider shape where it parses), the rest are read with
`.get`. -/
structure MarketValueEntry where
  date : MVDate
  clubID : Option Nat
  clubName : Option String
  value : Option Nat
deriving Repr, DecidableEq

/-- Row appended to `processed_data` for one market-value entry. -/
structure MarketValueRecord where
  player_id : Nat
  date : MVDate
  club_id : Option Nat
  club_name : Option String
  value : Option Nat
  season : String
deriving Repr, DecidableEq

/-- Embedding of `get_player_market_values(player_id, session)`:
on status 200 each history entry is mapped to a record with the derived
season; on any other status the function returns `[]`; an exception
propagates. -/
def get_player_market_values (player_id : Nat)
    (r : FetchResult (List MarketValueEntry)) :
    Except String (List MarketValueRecord) :=
  match r with
  | .exn msg => .error msg
  | .resp status body =>
    if status = 200 then
      .ok (body.map fun entry =>
        { player_id := player_id
          date := entry.date
          club_id := entry.clubID
          club_name := entry.clubName
          value := entry.value
          season := seasonOfDate entry.date })
    else
      .ok []

/-! Player profile: `get_player_info` (src/pulling_data_async.py lines
78-106). -/

/-- Decoded body of `GET /players/{id}/profile`. Every field is read with
`.get` except that `citizenship` is then indexed with `[0]`. -/
structure ProfileJson where
  name : Option String
  imageURL : Option String
  dateOfBirth : Option String
  height : Option String
  citizenship : Option (List String)
  position_main : Option String
  position_other : List String
  foot : Option String
  outfitter : Option String
deriving Repr, DecidableEq

/-- The dict built by `get_player_info` on a 200 response. -/
structure PlayerProfile where
  player_id : Nat
  player_name : Option String
  image_url : Option String
  date_of_birth : Option String
  height : Option String
  primary_citizenship : String
  secondary_citizenship : Option String
  main_position : Option String
  other_positions : String
  preferred_foot : Option String
  outfitter : Option String
deriving Repr, DecidableEq

/-- Value returned by `get_player_info`: either the full profile dict or the
error-marked dict `{"player_id": ..., "error": "Error {status}"}` produced on
a non-200 response. -/
inductive PlayerInfoResult where
  | profile (p : PlayerProfile)
  | errorMarked (player_id : Nat) (error : String)
deriving Repr, DecidableEq

/-- Embedding of `get_player_info(player_id, session)`. On a 200 response
the code evaluates `player_json.get("citizenship")[0]`, which raises
`TypeError` when the key is absent (`None[0]`) and `IndexError` when the
list is empty; both are modelled as `.error`. On a non-200 response it
returns the error-marked dict. An exception from the request propagates. -/
def get_player_info (player_id : Nat) (r : FetchResult ProfileJson) :
    Except String PlayerInfoResult :=
  match r with
  | .exn msg => .error msg
  | .resp status player_json =>
    if status = 200 then
      match player_json.citizenship with
      | some (c :: rest) =>
        .ok (.profile
          { player_id := player_id
            player_name := player_json.name
            image_url := player_json.imageURL
            date_of_birth := player_json.dateOfBirth
            height := player_json.height
            primary_citizenship := c
            secondary_citizenship := rest.head?
            main_position := player_json.position_main
            other_positions := String.intercalate ", " player_json.position_other
            preferred_foot := player_json.foot
            outfitter := player_json.outfitter })
      | some [] => .error "IndexError: list index out of range"
      | none => .error "TypeError: NoneType is not subscriptable"
    else
      .ok (.errorMarked player_id ("Error " ++ toString status))

/-! Jersey numbers: `get_player_jersey_number` (src/pulling_data_async.py
lines 140-158). -/

/-- One element of the provider's `jerseyNumbers` array. -/
structure JerseyEntry where
  season : Option String
  club : Option Nat
  jerseyNumber : Option Nat
deriving Repr, DecidableEq

/-- Row produced for one jersey entry. -/
structure JerseyRecord where
  player_id : Nat
  season : Option String
  club_id : Option Nat
  jersey_number : Option Nat
deriving Repr, DecidableEq

/-- Embedding of `get_player_jersey_number(player_id, session)`: 200 maps
the entries, any other status yields `[]`, an exception propagates. -/
def get_player_jersey_number (player_id : Nat)
    (r : FetchResult (List JerseyEntry)) : Except String (List JerseyRecord) :=
  match r with
  | .exn msg => .error msg
  | .resp status body =>
    if status = 200 then
      .ok (body.map fun entry =>
        { player_id := player_id
          season := entry.season
          club_id := entry.club
          jersey_number := entry.jerseyNumber })
    else
      .ok []

/-! Career stats: `get_player_stats` (src/pulling_data_async.py lines
161-186). -/

/-- One element of the provider's `stats` array. -/
structure StatEntry where
  competitionID : Option String
  competitionName : Option String
  seasonID : Option String
  clubID : Option Nat
  appearances : Option Nat
  minutesPlayed : Option Nat
  goals : Option Nat
  assists : Option Nat
  yellowCards : Option Nat
  redCards : Option Nat
deriving Repr, DecidableEq

/-- Row produced for one stats entry. -/
structure StatRecord where
  player_id : Nat
  competition_id : Option String
  competition_name : Option String
  season : Option String
  club_id : Option Nat
  appearances : Option Nat
  minutes_played : Option Nat
  goals : Option Nat
  assists : Option Nat
  yellow_cards : Option Nat
  red_cards : Option Nat
deriving Repr, DecidableEq

/-- Embedding of `get_player_stats(player_id, session)`: 200 maps the
entries, any other status yields `[]`, an exception propagates. -/
def get_player_stats (player_id : Nat) (r : FetchResult (List StatEntry)) :
    Except String (List StatRecord) :=
  match r with
  | .exn msg => .error msg
  | .resp status body =>
    if status = 200 then
      .ok (body.map fun entry =>
        { player_id := player_id
          competition_id := entry.competitionID
          competition_name := entry.competitionName
          season := entry.seasonID
          club_id := entry.clubID
          appearances := entry.appearances
          minutes_played := entry.minutesPlayed
          goals := entry.goals
          assists := entry.assists
          yellow_cards := entry.yellowCards
          red_cards := entry.redCards })
    else
      .ok []

/-- Embedding of `fetch_all_player_data(player)` (src/pulling_data_async.py
lines 11-38): the four detail fetches run under `asyncio.gather` with no
exception handling, so the tuple of results exists exactly when none of the
four raised, and any raised exception propagates out of the group. -/
def fetch_all_player_data (player_id : Nat)
    (rInfo : FetchResult ProfileJson)
    (rJersey : FetchResult (List JerseyEntry))
    (rMv : FetchResult (List MarketValueEntry))
    (rStats : FetchResult (List StatEntry)) :
    Except String
      (PlayerInfoResult × List JerseyRecord × List MarketValueRecord ×
        List StatRecord) := do
  let player_info ← get_player_info player_id rInfo
  let jersey_numbers ← get_player_jersey_number player_id rJersey
  let market_values ← get_player_market_values player_id rMv
  let player_stats ← get_player_stats player_id rStats
  return (player_info, jersey_numbers, market_values, player_stats)

/-! Discovery: `get_clubs` / `get_players` (src/pulling_data_async.py lines
41-75) and the discovery half of `build_player_dataset` (lines 189-244). -/

/-- One element of the provider's `clubs` array (`{id, name}`). -/
structure ClubJson where
  id : Nat
  name : String
deriving Repr, DecidableEq

/-- The dict `{"club_id":..., "club_name":...}` built by `get_clubs`. -/
structure Club where
  club_id : Nat
  club_name : String
deriving Repr, DecidableEq

/-- One element of the provider's `players` array (`{id, name}`). -/
structure PlayerJson where
  id : Nat
  name : String
deriving Repr, DecidableEq

/-- Embedding of `get_clubs(competition_id, season_id)`: a 200 response maps
the club entries; any other status raises `SystemExit` with a descriptive
message, modelled as `.error`; a request exception propagates. -/
def get_clubs (r : FetchResult (List ClubJson)) : Except String (List Club) :=
  match r with
  | .exn msg => .error msg
  | .resp status body =>
    if status = 200 then
      .ok (body.map fun club => { club_id := club.id, club_name := club.name })
    else
      .error ("Error fetching clubs: " ++ toString status)

/-- Embedding of `get_players(club_id, season_id, player_ids)`: a 200
response yields the roster ids (which the caller adds to the shared set);
any other status raises `SystemExit`, modelled as `.error`. -/
def get_players (r : FetchResult (List PlayerJson)) : Except String (List Nat) :=
  match r with
  | .exn msg => .error msg
  | .resp status body =>
    if status = 200 then
      .ok (body.map fun player => player.id)
    else
      .error ("Error fetching players: " ++ toString status)

/-- Fixed provider state for one run: how the provider answers each club
listing and each roster request. -/
structure Provider where
  clubsResp : String → String → FetchResult (List ClubJson)
  playersResp : Nat → String → FetchResult (List PlayerJson)

/-- One completed `process_club` call: a club sighted for a competition and
season, together with the roster ids its `get_players` call returned. -/
structure Sighting where
  competition_id : String
  season_id : String
  club : Club
  roster : List Nat
deriving Repr, DecidableEq

/-- Registry key: `club_key = (competition_id, club_id)`. -/
def Sighting.key (sg : Sighting) : String × Nat :=
  (sg.competition_id, sg.club.club_id)

/-- Semantics of `asyncio.gather` over fallible tasks: the gathered list of
results exists exactly when every task succeeded, and a raised
exception/`SystemExit` aborts the whole group. -/
def gatherExcept (f : α → Except String β) : List α → Except String (List β)
  | [] => .ok []
  | x :: xs => do
    let y ← f x
    let ys ← gatherExcept f xs
    pure (y :: ys)

/-- Embedding of `process_competition_season` for one pair: fetch the clubs
(fatal on non-200), then each club's roster (fatal on non-200), recording
one sighting per club. -/
def discoverPair (prov : Provider) (cs : String × String) :
    Except String (List Sighting) := do
  let clubs ← get_clubs (prov.clubsResp cs.1 cs.2)
  gatherExcept (fun club => do
    let roster ← get_players (prov.playersResp club.club_id cs.2)
    pure { competition_id := cs.1, season_id := cs.2, club := club,
           roster := roster }) clubs

/-- Discovery stage of `build_player_dataset`: every competition-season pair
is processed; the whole stage produces a value only when every club listing
and every roster fetch succeeded — any `SystemExit` aborts the run. -/
def discovery (prov : Provider) (pairs : List (String × String)) :
    Except String (List Sighting) := do
  let results ← gatherExcept (discoverPair prov) pairs
  pure results.flatten

/-- Accumulated player-id set after discovery: every sighted roster id,
added to the shared `player_ids` set. The set is order-insensitive by
construction (a `Finset`). -/
def playerIdSet (sights : List Sighting) : Finset Nat :=
  sights.foldl (fun acc sg => acc ∪ sg.roster.toFinset) ∅

/-! Competition-club registry: the `competition_clubs` dict updated by
`process_club` (src/pulling_data_async.py lines 199-217) and rendered in
step 3 (lines 289-300). -/

/-- Value stored in the `competition_clubs` dict for one key. -/
structure ClubEntry where
  competition_id : String
  club_id : Nat
  club_name : String
  season_ids : List String
deriving Repr, DecidableEq

/-- Append `season_id` to the `season_ids` list of the entry for key `k` in
an association list (the dict-update branch of `process_club`). -/
def appendSeason (k : String × Nat) (season_id : String) :
    List ((String × Nat) × ClubEntry) → List ((String × Nat) × ClubEntry)
  | [] => []
  | (k0, e) :: rest =>
    if k0 = k then
      (k0, { e with season_ids := e.season_ids ++ [season_id] }) :: rest
    else
      (k0, e) :: appendSeason k season_id rest

/-- Membership test `club_key in competition_clubs`. -/
def hasKey (k : String × Nat) (reg : List ((String × Nat) × ClubEntry)) : Bool :=
  reg.any (fun entry => entry.1 = k)

/-- Registry update performed by one `process_club` call: first sighting of
the key inserts a fresh entry with a singleton season list, a later sighting
appends the season to the existing entry. Python dicts keep insertion order,
so a fresh key goes to the end. -/
def regUpdate (reg : List ((String × Nat) × ClubEntry)) (sg : Sighting) :
    List ((String × Nat) × ClubEntry) :=
  if hasKey sg.key reg then
    appendSeason sg.key sg.season_id reg
  else
    reg ++ [(sg.key,
      { competition_id := sg.competition_id
        club_id := sg.club.club_id
        club_name := sg.club.club_name
        season_ids := [sg.season_id] })]

/-- The registry built by running the `process_club` dict updates in the
given execution order. The update block has no suspension point, so under
`asyncio` each update is atomic and an interleaving of the concurrent
`process_club` calls is exactly an ordering of the sightings. -/
def buildRegistry (sights : List Sighting) :
    List ((String × Nat) × ClubEntry) :=
  sights.foldl regUpdate []

/-- First-match lookup in the association list (dict indexing). -/
def lookupReg (k : String × Nat) :
    List ((String × Nat) × ClubEntry) → Option ClubEntry
  | [] => none
  | (k0, e) :: rest => if k0 = k then some e else lookupReg k rest

/-- Expected registry entry for key `k` given the sightings of `k` in
execution order: the first sighting contributes the club name and the
singleton season list, each later sighting appends its season. Used to
characterise `buildRegistry`. -/
def entryOfSightings (_k : String × Nat) : List Sighting → Option ClubEntry
  | [] => none
  | sg :: rest => some
      { competition_id := sg.competition_id
        club_id := sg.club.club_id
        club_name := sg.club.club_name
        season_ids := sg.season_id :: rest.map Sighting.season_id }

/-! Batching of the detail stage (src/pulling_data_async.py lines 273-287):
`batches = [list(player_ids)[i : i + BATCH_SIZE] for i in range(0, len(player_ids), BATCH_SIZE)]`. -/

/-- Batch size literal from line 274. -/
def BATCH_SIZE : Nat := 1600

/-- The successive slices `l[i : i + n]` for `i = 0, n, 2n, ...` up to the
length of `l`. For `n = 0` Python's `range(0, len, 0)` raises `ValueError`;
that case is outside the embedding (every use has `n = BATCH_SIZE`). -/
def toBatches (n : Nat) (l : List α) : List (List α) :=
  match n, l with
  | _, [] => []
  | 0, _ => []
  | m + 1, a :: as =>
    (a :: as).take (m + 1) :: toBatches (m + 1) ((a :: as).drop (m + 1))
termination_by l.length
decreasing_by
  simp only [List.drop_succ_cons, List.length_cons, List.length_drop]
  omega

/-! Registry export (step 3, src/pulling_data_async.py lines 289-300). -/

/-- Python's `sorted(xs, reverse=True)` on season-id strings: descending
lexicographic order. -/
def sortedDesc (xs : List String) : List String :=
  xs.insertionSort (· ≥ ·)

/-- Row of `competition_clubs_list` built from one dict entry: the season
list is sorted descending and comma-joined. The `youth_team_id` /
`youth_team_name` keys are not present yet (step 4 may add them). -/
structure RegistryRow where
  competition_id : String
  seasons_joined : String
  club_id : Nat
  club_name : String
  youth_team_id : Option Nat := none
  youth_team_name : Option String := none
deriving Repr, DecidableEq

/-- Step-3 conversion of one `competition_clubs` entry to an export row:
`",".join(map(str, sorted(club_data["season_ids"], reverse=True)))`. -/
def exportRow (e : ClubEntry) : RegistryRow :=
  { competition_id := e.competition_id
    seasons_joined := String.intercalate "," (sortedDesc e.season_ids)
    club_id := e.club_id
    club_name := e.club_name }

/-! Youth-team enrichment: `add_youth_team_data` (src/pulling_data_async.py
lines 307-337). -/

/-- One element of the provider's search `results` array; all fields are
read with `.get`. -/
structure SearchResult where
  id : Option Nat
  name : Option String
  country : Option String
deriving Repr, DecidableEq

/-- The `for result in results[1:]` loop with its `break`: the first result
whose `country` equals the presumed senior team's country. -/
def scanYouth (senior_country : Option String) :
    List SearchResult → Option SearchResult
  | [] => none
  | r :: rest =>
    if r.country = senior_country then some r else scanYouth senior_country rest

/-- Embedding of `add_youth_team_data(club)`. On a 200 response the youth
fields are first set to `None`, the first result's country is taken as the
senior club's country (`None` when `results` is empty), and the scan fills
the fields from the first same-country match after index 0. On a non-200
response the `if` body is skipped and the club is returned unchanged. Any
exception is caught by the `except` clause, which sets both fields to
`None`. The function never raises. -/
def add_youth_team_data (club : RegistryRow)
    (r : FetchResult (List SearchResult)) : RegistryRow :=
  match r with
  | .exn _ => { club with youth_team_id := none, youth_team_name := none }
  | .resp status results =>
    if status = 200 then
      let club1 := { club with youth_team_id := none, youth_team_name := none }
      let senior_team_country : Option String :=
        match results with
        | [] => none
        | r0 :: _ => r0.country
      match scanYouth senior_team_country (results.drop 1) with
      | some res =>
        { club1 with youth_team_id := res.id, youth_team_name := res.name }
      | none => club1
    else
      club

/-! Concurrency ceiling of the detail stage: `asyncio.Semaphore(100)` is
created once in `build_player_dataset` (line 197) and every `process_player`
task across every batch acquires it (lines 254-271); batches are awaited
one after another (lines 280-287). The scheduler is modelled as a state
machine: a pending task of the current batch may enter its `async with
semaphore` block only when a permit is free; a running task may finish,
releasing its permit; the next batch starts only when the current batch is
fully done. The semaphore value is carried across batches, never reset. -/

/-- Semaphore limit literal from line 197. -/
def SEMAPHORE_LIMIT : Nat := 100

/-- Detail-collector scheduler state: free permits, tasks inside the
semaphore block, tasks of the current batch not yet admitted, and the sizes
of the batches not yet started. -/
structure CollState where
  sem : Nat
  running : Nat
  pending : Nat
  rest : List Nat
deriving Repr, DecidableEq

/-- One scheduler step of the detail stage. -/
inductive CollStep : CollState → CollState → Prop
  | start (s : CollState) (hp : 0 < s.pending) (hs : 0 < s.sem) :
      CollStep s
        { sem := s.sem - 1, running := s.running + 1,
          pending := s.pending - 1, rest := s.rest }
  | finish (s : CollState) (hr : 0 < s.running) :
      CollStep s
        { sem := s.sem + 1, running := s.running - 1,
          pending := s.pending, rest := s.rest }
  | nextBatch (s : CollState) (b : Nat) (bs : List Nat)
      (hp : s.pending = 0) (hr : s.running = 0) (hrest : s.rest = b :: bs) :
      CollStep s { sem := s.sem, running := 0, pending := b, rest := bs }

/-- Initial scheduler state: the semaphore holds all `n` permits, nothing
runs, and the batch sizes are queued with the first batch active. -/
def initColl (n : Nat) (batches : List Nat) : CollState :=
  match batches with
  | [] => { sem := n, running := 0, pending := 0, rest := [] }
  | b :: bs => { sem := n, running := 0, pending := b, rest := bs }

/-- States reachable by the detail-stage scheduler. -/
inductive CollReach (init : CollState) : CollState → Prop
  | refl : CollReach init init
  | step {s t : CollState} (h : CollReach init s) (hst : CollStep s t) :
      CollReach init t

/-! Theorems about the embedded pipeline. -/

/-- C2: for every market-value entry with date `D`, the derived season label
equals `"{(year(D)-1) mod 100}/{year(D) mod 100}"` when `month(D) < 7` and
`"{year(D) mod 100}/{(year(D)+1) mod 100}"` otherwise, with both components
zero-padded to 2 digits; in particular 2022-06-30 maps to "21/22",
2022-07-01 to "22/23", and 2000-01-01 to "99/00". -/
theorem market_value_season_formula (player_id : Nat)
    (entries : List MarketValueEntry) (recs : List MarketValueRecord)
    (h : get_player_market_values player_id (.resp 200 entries) = .ok recs) :
    (∀ r ∈ recs, r.season =
      if r.date.month < 7 then
        pad2 ((r.date.year - 1) % 100) ++ "/" ++ pad2 (r.date.year % 100)
      else
        pad2 (r.date.year % 100) ++ "/" ++ pad2 ((r.date.year + 1) % 100)) ∧
    seasonOfDate ⟨2022, 6, 30⟩ = "21/22" ∧
    seasonOfDate ⟨2022, 7, 1⟩ = "22/23" ∧
    seasonOfDate ⟨2000, 1, 1⟩ = "99/00" := by
  refine ⟨?_, by decide, by decide, by decide⟩
  intro r hr
  injection h with h
  subst h
  obtain ⟨entry, _, rfl⟩ := List.mem_map.mp hr
  rfl

/-- C2 witness: the formula theorem instantiated on a concrete
single-entry 200 response. -/
theorem market_value_season_formula_witness :
    (∀ r ∈ [({ player_id := 3, date := ⟨2023, 5, 10⟩, club_id := some 9,
               club_name := some "X", value := some 5,
               season := seasonOfDate ⟨2023, 5, 10⟩ } : MarketValueRecord)],
      r.season =
        if r.date.month < 7 then
          pad2 ((r.date.year - 1) % 100) ++ "/" ++ pad2 (r.date.year % 100)
        else
          pad2 (r.date.year % 100) ++ "/" ++ pad2 ((r.date.year + 1) % 100)) ∧
    seasonOfDate ⟨2022, 6, 30⟩ = "21/22" ∧
    seasonOfDate ⟨2022, 7, 1⟩ = "22/23" ∧
    seasonOfDate ⟨2000, 1, 1⟩ = "99/00" :=
  market_value_season_formula 3
    [{ date := ⟨2023, 5, 10⟩, clubID := some 9, clubName := some "X",
       value := some 5 }] _ rfl

/-- C10: every record returned by a successful detail fetch carries the
player id the fetch was invoked with: the profile's `player_id` field and
the `player_id` field of every jersey, market-value and stats row equal the
requested id. -/
theorem detail_records_carry_player_id (player_id : Nat)
    (pj : ProfileJson) (je : List JerseyEntry) (me : List MarketValueEntry)
    (se : List StatEntry) :
    (∀ p, get_player_info player_id (.resp 200 pj) = .ok (.profile p) →
      p.player_id = player_id) ∧
    (∀ l, get_player_jersey_number player_id (.resp 200 je) = .ok l →
      ∀ r ∈ l, r.player_id = player_id) ∧
    (∀ l, get_player_market_values player_id (.resp 200 me) = .ok l →
      ∀ r ∈ l, r.player_id = player_id) ∧
    (∀ l, get_player_stats player_id (.resp 200 se) = .ok l →
      ∀ r ∈ l, r.player_id = player_id) := by
  refine ⟨?_, ?_, ?_, ?_⟩
  · intro p hp
    obtain ⟨nm, im, dob, ht, cit, pm, po, ft, out⟩ := pj
    cases cit with
    | none => exact Except.noConfusion hp
    | some cl =>
      cases cl with
      | nil => exact Except.noConfusion hp
      | cons c rest =>
        injection hp with h1
        injection h1 with h2
        exact h2 ▸ rfl
  · intro l hl r hr
    injection hl with hl
    subst hl
    obtain ⟨entry, _, rfl⟩ := List.mem_map.mp hr
    rfl
  · intro l hl r hr
    injection hl with hl
    subst hl
    obtain ⟨entry, _, rfl⟩ := List.mem_map.mp hr
    rfl
  · intro l hl r hr
    injection hl with hl
    subst hl
    obtain ⟨entry, _, rfl⟩ := List.mem_map.mp hr
    rfl

/-- C10 witness: the id-tagging theorem applied at a concrete player id and
concrete single-entry bodies, with its inner hypotheses discharged by
evaluation. -/
theorem detail_records_carry_player_id_witness :
    ({ player_id := 42, player_name := some "N", image_url := none,
       date_of_birth := none, height := none, primary_citizenship := "DE",
       secondary_citizenship := none, main_position := some "GK",
       other_positions := "", preferred_foot := none,
       outfitter := none } : PlayerProfile).player_id = 42 ∧
    (∀ r ∈ [({ player_id := 42, season := some "2023", club_id := some 5,
               jersey_number := some 10 } : JerseyRecord)],
      r.player_id = 42) :=
  ⟨(detail_records_carry_player_id 42
      { name := some "N", imageURL := none, dateOfBirth := none,
        height := none, citizenship := some ["DE"],
        position_main := some "GK", position_other := [],
        foot := none, outfitter := none }
      [{ season := some "2023", club := some 5, jerseyNumber := some 10 }]
      [] []).1 _ rfl,
   (detail_records_carry_player_id 42
      { name := some "N", imageURL := none, dateOfBirth := none,
        height := none, citizenship := some ["DE"],
        position_main := some "GK", position_other := [],
        foot := none, outfitter := none }
      [{ season := some "2023", club := some 5, jerseyNumber := some 10 }]
      [] []).2.1 _ rfl⟩

/-- C3 counterexample: an exception in the profile fetch does not degrade to
an error-marked profile — it propagates out of `asyncio.gather` and aborts
the whole fetch group, discarding the other three (successful) fetches. -/
theorem detail_exception_aborts_group :
    fetch_all_player_data 7 (.exn "boom") (.resp 200 []) (.resp 200 [])
        (.resp 200 [])
      = .error "boom" := rfl

/-- C3 amended: each of the four detail fetches degrades independently on a
non-200 response — a profile non-200 yields the error-marked profile, and a
jersey/market-value/stats non-200 yields an empty list — and whenever every
fetch returns (rather than raising), the group succeeds with each component
determined solely by its own response; an exception, by contrast,
propagates (see `detail_exception_aborts_group`). -/
theorem detail_non200_degrades_independently (player_id : Nat)
    (s1 s2 s3 s4 : Nat) (pj : ProfileJson) (je : List JerseyEntry)
    (me : List MarketValueEntry) (se : List StatEntry)
    (info : PlayerInfoResult) (js : List JerseyRecord)
    (mv : List MarketValueRecord) (st : List StatRecord)
    (hinfo : get_player_info player_id (.resp s1 pj) = .ok info)
    (hjs : get_player_jersey_number player_id (.resp s2 je) = .ok js)
    (hmv : get_player_market_values player_id (.resp s3 me) = .ok mv)
    (hst : get_player_stats player_id (.resp s4 se) = .ok st) :
    fetch_all_player_data player_id (.resp s1 pj) (.resp s2 je) (.resp s3 me)
        (.resp s4 se) = .ok (info, js, mv, st) ∧
    (s1 ≠ 200 → info = .errorMarked player_id ("Error " ++ toString s1)) ∧
    (s2 ≠ 200 → js = []) ∧
    (s3 ≠ 200 → mv = []) ∧
    (s4 ≠ 200 → st = []) := by
  refine ⟨?_, ?_, ?_, ?_, ?_⟩
  · simp only [fetch_all_player_data, bind, Except.bind, hinfo, hjs, hmv, hst]
    rfl
  · intro h1
    simp only [get_player_info, if_neg h1, Except.ok.injEq] at hinfo
    exact hinfo.symm
  · intro h2
    simp only [get_player_jersey_number, if_neg h2, Except.ok.injEq] at hjs
    exact hjs.symm
  · intro h3
    simp only [get_player_market_values, if_neg h3, Except.ok.injEq] at hmv
    exact hmv.symm
  · intro h4
    simp only [get_player_stats, if_neg h4, Except.ok.injEq] at hst
    exact hst.symm

/-- C3 witness: the amended theorem applied at a player whose profile fetch
returned 404 and whose stats fetch returned 500 while jersey and
market-value fetches succeeded: the group still succeeds, the profile is
error-marked, the stats list is empty, and the jersey row survives. -/
theorem detail_non200_degrades_independently_witness :
    fetch_all_player_data 9
        (.resp 404
          { name := none, imageURL := none, dateOfBirth := none,
            height := none, citizenship := none, position_main := none,
            position_other := [], foot := none, outfitter := none })
        (.resp 200 [{ season := some "2023", club := some 5,
                      jerseyNumber := some 10 }])
        (.resp 200 []) (.resp 500 [])
      = .ok (.errorMarked 9 ("Error " ++ toString 404),
             [{ player_id := 9, season := some "2023", club_id := some 5,
                jersey_number := some 10 }], [], []) ∧
    ((404 : Nat) ≠ 200 →
      (PlayerInfoResult.errorMarked 9 ("Error " ++ toString 404))
        = .errorMarked 9 ("Error " ++ toString 404)) ∧
    ((200 : Nat) ≠ 200 →
      ([({ player_id := 9, season := some "2023", club_id := some 5,
           jersey_number := some 10 } : JerseyRecord)]) = []) ∧
    ((200 : Nat) ≠ 200 → ([] : List MarketValueRecord) = []) ∧
    ((500 : Nat) ≠ 200 → ([] : List StatRecord) = []) :=
  detail_non200_degrades_independently 9 404 200 200 500
    { name := none, imageURL := none, dateOfBirth := none, height := none,
      citizenship := none, position_main := none, position_other := [],
      foot := none, outfitter := none }
    [{ season := some "2023", club := some 5, jerseyNumber := some 10 }]
    [] [] _ _ _ _ rfl rfl rfl rfl

/-- Characterisation of the youth-team scan returning nothing: no scanned
result has the senior club's country. -/
theorem scanYouth_eq_none_iff (c : Option String) :
    ∀ l : List SearchResult, scanYouth c l = none ↔ ∀ r ∈ l, r.country ≠ c
  | [] => by simp [scanYouth]
  | r :: rest => by
    simp only [scanYouth]
    by_cases h : r.country = c
    · simp only [if_pos h]
      constructor
      · intro hx; exact absurd hx (by simp)
      · intro hall; exact absurd h (hall r (by simp))
    · simp only [if_neg h]
      rw [scanYouth_eq_none_iff c rest]
      constructor
      · intro hall r' hr'
        rcases List.mem_cons.mp hr' with rfl | hr'
        · exact h
        · exact hall r' hr'
      · intro hall r' hr'
        exact hall r' (List.mem_cons_of_mem _ hr')

/-- The youth-team scan returns the first element whose country matches. -/
theorem scanYouth_first_match (c : Option String) :
    ∀ (l : List SearchResult) (j : Nat) (hj : j < l.length),
      (l.get ⟨j, hj⟩).country = c →
      (∀ i (hi : i < j), (l.get ⟨i, Nat.lt_trans hi hj⟩).country ≠ c) →
      scanYouth c l = some (l.get ⟨j, hj⟩)
  | [], j, hj => by simp at hj
  | r :: rest, 0, hj => by
    intro hmatch _
    have hm : r.country = c := hmatch
    simp only [scanYouth]
    rw [if_pos hm]
    rfl
  | r :: rest, j + 1, hj => by
    intro hmatch hbefore
    have h0 : r.country ≠ c := hbefore 0 (Nat.succ_pos j)
    simp only [scanYouth, if_neg h0]
    exact scanYouth_first_match c rest j (Nat.lt_of_succ_lt_succ hj) hmatch
      (fun i hi => hbefore (i + 1) (Nat.succ_lt_succ hi))

/-- C4: for a non-empty search-result list, youth-team resolution takes the
first result's country as the senior club's country, scans from index 1
onward, and assigns the id and name of the first result whose country
equals it. -/
theorem youth_team_first_same_country (club : RegistryRow)
    (r0 : SearchResult) (rest : List SearchResult) (j : Nat)
    (hj : j < rest.length)
    (hmatch : (rest.get ⟨j, hj⟩).country = r0.country)
    (hbefore : ∀ i (hi : i < j),
      (rest.get ⟨i, Nat.lt_trans hi hj⟩).country ≠ r0.country) :
    (add_youth_team_data club (.resp 200 (r0 :: rest))).youth_team_id
        = (rest.get ⟨j, hj⟩).id ∧
    (add_youth_team_data club (.resp 200 (r0 :: rest))).youth_team_name
        = (rest.get ⟨j, hj⟩).name := by
  have hscan := scanYouth_first_match r0.country rest j hj hmatch hbefore
  have hred : add_youth_team_data club (.resp 200 (r0 :: rest)) =
      (match scanYouth r0.country rest with
       | some res =>
         { club with youth_team_id := res.id, youth_team_name := res.name }
       | none =>
         { club with youth_team_id := none, youth_team_name := none }) := rfl
  rw [hred, hscan]
  exact ⟨rfl, rfl⟩

/-- C4 witness: search results with countries [DE, FR, DE] resolve the youth
team to the third result (id 3, name "DY"), not the second. -/
theorem youth_team_first_same_country_witness :
    (add_youth_team_data
        { competition_id := "GB1", seasons_joined := "2023", club_id := 10,
          club_name := "X" }
        (.resp 200
          [{ id := some 1, name := some "S", country := some "DE" },
           { id := some 2, name := some "FY", country := some "FR" },
           { id := some 3, name := some "DY", country := some "DE" }])).youth_team_id
      = some 3 ∧
    (add_youth_team_data
        { competition_id := "GB1", seasons_joined := "2023", club_id := 10,
          club_name := "X" }
        (.resp 200
          [{ id := some 1, name := some "S", country := some "DE" },
           { id := some 2, name := some "FY", country := some "FR" },
           { id := some 3, name := some "DY", country := some "DE" }])).youth_team_name
      = some "DY" :=
  youth_team_first_same_country
    { competition_id := "GB1", seasons_joined := "2023", club_id := 10,
      club_name := "X" }
    { id := some 1, name := some "S", country := some "DE" }
    [{ id := some 2, name := some "FY", country := some "FR" },
     { id := some 3, name := some "DY", country := some "DE" }]
    1 (by decide) (by decide)
    (by
      intro i hi
      have h0 : i = 0 := Nat.lt_one_iff.mp hi
      subst h0
      simp)

/-- C5: every failure mode of youth-team resolution — a request exception,
a non-200 response (given the step-3 row, whose youth fields are not yet
set), an empty result list, and no same-country match after index 0 —
leaves both youth fields null; the function is total, so no failure raises
or aborts the run. -/
theorem youth_team_failure_null (club : RegistryRow)
    (hid : club.youth_team_id = none) (hname : club.youth_team_name = none) :
    (∀ msg, (add_youth_team_data club (.exn msg)).youth_team_id = none ∧
            (add_youth_team_data club (.exn msg)).youth_team_name = none) ∧
    (∀ status results, status ≠ 200 →
      (add_youth_team_data club (.resp status results)).youth_team_id = none ∧
      (add_youth_team_data club (.resp status results)).youth_team_name = none) ∧
    ((add_youth_team_data club (.resp 200 [])).youth_team_id = none ∧
     (add_youth_team_data club (.resp 200 [])).youth_team_name = none) ∧
    (∀ r0 rest, (∀ r ∈ rest, r.country ≠ r0.country) →
      (add_youth_team_data club (.resp 200 (r0 :: rest))).youth_team_id = none ∧
      (add_youth_team_data club
          (.resp 200 (r0 :: rest))).youth_team_name = none) := by
  refine ⟨fun msg => ⟨rfl, rfl⟩, ?_, ⟨rfl, rfl⟩, ?_⟩
  · intro status results h
    have hred : add_youth_team_data club (.resp status results) =
        (if status = 200 then
          (match scanYouth
              (match results with
               | [] => none
               | r0 :: _ => r0.country) (results.drop 1) with
           | some res =>
             { club with youth_team_id := res.id, youth_team_name := res.name }
           | none =>
             { club with youth_team_id := none, youth_team_name := none })
        else club) := by
      simp only [add_youth_team_data]
    rw [hred, if_neg h]
    exact ⟨hid, hname⟩
  · intro r0 rest hnone
    have hscan : scanYouth r0.country rest = none :=
      (scanYouth_eq_none_iff r0.country rest).mpr hnone
    have hred : add_youth_team_data club (.resp 200 (r0 :: rest)) =
        (match scanYouth r0.country rest with
         | some res =>
           { club with youth_team_id := res.id, youth_team_name := res.name }
         | none =>
           { club with youth_team_id := none, youth_team_name := none }) := rfl
    rw [hred, hscan]
    exact ⟨rfl, rfl⟩

/-- C5 witness: the failure-mode theorem applied to a concrete step-3 row,
with the non-200 case evaluated at status 500 and the no-match case at a
[DE, FR] result list. -/
theorem youth_team_failure_null_witness :
    (∀ msg,
      (add_youth_team_data
          { competition_id := "GB1", seasons_joined := "2023", club_id := 10,
            club_name := "X" } (.exn msg)).youth_team_id = none ∧
      (add_youth_team_data
          { competition_id := "GB1", seasons_joined := "2023", club_id := 10,
            club_name := "X" } (.exn msg)).youth_team_name = none) ∧
    (∀ status results, status ≠ 200 →
      (add_youth_team_data
          { competition_id := "GB1", seasons_joined := "2023", club_id := 10,
            club_name := "X" } (.resp status results)).youth_team_id = none ∧
      (add_youth_team_data
          { competition_id := "GB1", seasons_joined := "2023", club_id := 10,
            club_name := "X" } (.resp status results)).youth_team_name = none) ∧
    ((add_youth_team_data
        { competition_id := "GB1", seasons_joined := "2023", club_id := 10,
          club_name := "X" } (.resp 200 [])).youth_team_id = none ∧
     (add_youth_team_data
        { competition_id := "GB1", seasons_joined := "2023", club_id := 10,
          club_name := "X" } (.resp 200 [])).youth_team_name = none) ∧
    (∀ r0 rest, (∀ r ∈ rest, r.country ≠ r0.country) →
      (add_youth_team_data
          { competition_id := "GB1", seasons_joined := "2023", club_id := 10,
            club_name := "X" }
          (.resp 200 (r0 :: rest))).youth_team_id = none ∧
      (add_youth_team_data
          { competition_id := "GB1", seasons_joined := "2023", club_id := 10,
            club_name := "X" }
          (.resp 200 (r0 :: rest))).youth_team_name = none) :=
  youth_team_failure_null
    { competition_id := "GB1", seasons_joined := "2023", club_id := 10,
      club_name := "X" } rfl rfl

/-- Concatenating the batch slices gives back the batched list. -/
theorem toBatches_flatten {α : Type} (m : Nat) :
    ∀ l : List α, (toBatches (m + 1) l).flatten = l
  | [] => by simp [toBatches]
  | a :: as => by
    have ih := toBatches_flatten m ((a :: as).drop (m + 1))
    simp only [toBatches, List.flatten_cons, ih, List.take_append_drop]
termination_by l => l.length
decreasing_by
  simp only [List.drop_succ_cons, List.length_drop, List.length_cons]
  omega

/-- A list of batches whose concatenation contains `p` exactly once has
exactly one batch containing `p`. -/
theorem countP_contains_eq_one {p : Nat} :
    ∀ L : List (List Nat), L.flatten.count p = 1 →
      L.countP (fun b => decide (p ∈ b)) = 1
  | [] => by simp
  | b :: L' => by
    intro h
    rw [List.flatten_cons, List.count_append] at h
    rw [List.countP_cons]
    by_cases hb : p ∈ b
    · have h1 : 0 < b.count p := List.count_pos_iff.mpr hb
      have h3 : L'.countP (fun b => decide (p ∈ b)) = 0 := by
        rw [List.countP_eq_zero]
        intro b' hb'
        simp only [decide_eq_true_eq]
        intro hpb'
        have : 0 < L'.flatten.count p :=
          List.count_pos_iff.mpr (List.mem_flatten.mpr ⟨b', hb', hpb'⟩)
        omega
      simp [hb, h3]
    · have h1 : b.count p = 0 := List.count_eq_zero.mpr hb
      have h2 := countP_contains_eq_one (p := p) L' (by omega)
      simp [hb, h2]

/-- C1: slicing the deduplicated player-id list (the iteration order of the
`player_ids` set, hence duplicate-free) into fixed-size batches loses and
duplicates nothing: the concatenation of all batches equals the list, and
each player id lies in exactly one batch, hence triggers exactly one
detail-fetch group (`process_player` is spawned once per batch element). -/
theorem batches_partition_players (n : Nat) (hn : 0 < n) (l : List Nat)
    (hnd : l.Nodup) :
    (toBatches n l).flatten = l ∧
    ∀ p ∈ l, (toBatches n l).countP (fun b => decide (p ∈ b)) = 1 := by
  cases n with
  | zero => exact absurd hn (by omega)
  | succ m =>
    refine ⟨toBatches_flatten m l, ?_⟩
    intro p hp
    apply countP_contains_eq_one
    rw [toBatches_flatten m l]
    exact List.count_eq_one_of_mem hnd hp

/-- C1 witness: the batching theorem at the default batch size 1600 on a
small concrete duplicate-free id list. -/
theorem batches_partition_players_witness :
    (toBatches BATCH_SIZE [1, 2, 3]).flatten = [1, 2, 3] ∧
    ∀ p ∈ [1, 2, 3],
      (toBatches BATCH_SIZE [1, 2, 3]).countP (fun b => decide (p ∈ b)) = 1 :=
  batches_partition_players BATCH_SIZE (by decide) [1, 2, 3] (by decide)

/-- Appending a season under key `ka` leaves lookups of other keys alone. -/
theorem lookupReg_appendSeason_ne (k ka : String × Nat) (s : String)
    (hk : ka ≠ k) :
    ∀ reg, lookupReg k (appendSeason ka s reg) = lookupReg k reg
  | [] => rfl
  | (k0, e) :: rest => by
    by_cases h0 : k0 = ka
    · subst h0
      simp only [appendSeason, if_pos rfl, lookupReg, if_neg hk]
    · simp only [appendSeason, if_neg h0, lookupReg]
      by_cases h1 : k0 = k
      · rw [if_pos h1, if_pos h1]
      · rw [if_neg h1, if_neg h1]
        exact lookupReg_appendSeason_ne k ka s hk rest

/-- Appending a season under key `k` appends it to the looked-up entry. -/
theorem lookupReg_appendSeason_eq (k : String × Nat) (s : String) :
    ∀ reg, lookupReg k (appendSeason k s reg)
      = (lookupReg k reg).map
          (fun e => { e with season_ids := e.season_ids ++ [s] })
  | [] => rfl
  | (k0, e) :: rest => by
    by_cases h0 : k0 = k
    · simp only [appendSeason, if_pos h0, lookupReg, if_pos h0]
      rfl
    · simp only [appendSeason, if_neg h0, lookupReg, if_neg h0]
      exact lookupReg_appendSeason_eq k s rest

/-- Lookup through an element appended at the end of the registry. -/
theorem lookupReg_append_single (k ka : String × Nat) (e : ClubEntry) :
    ∀ reg, lookupReg k (reg ++ [(ka, e)])
      = (match lookupReg k reg with
         | some x => some x
         | none => if ka = k then some e else none)
  | [] => rfl
  | (k0, x) :: rest => by
    by_cases h0 : k0 = k
    · simp only [List.cons_append, lookupReg, if_pos h0]
    · simp only [List.cons_append, lookupReg, if_neg h0]
      exact lookupReg_append_single k ka e rest

/-- The dict membership test agrees with lookup. -/
theorem hasKey_eq_isSome (k : String × Nat) :
    ∀ reg, hasKey k reg = (lookupReg k reg).isSome
  | [] => rfl
  | (k0, e) :: rest => by
    simp only [hasKey, List.any_cons, lookupReg]
    by_cases h0 : k0 = k
    · simp [h0]
    · rw [if_neg h0]
      have ih := hasKey_eq_isSome k rest
      simp only [hasKey] at ih
      simp [h0, ih]

/-- Appending a season never changes the key sequence. -/
theorem appendSeason_keys (k : String × Nat) (s : String) :
    ∀ reg, (appendSeason k s reg).map Prod.fst = reg.map Prod.fst
  | [] => rfl
  | (k0, e) :: rest => by
    by_cases h0 : k0 = k
    · simp only [appendSeason, if_pos h0, List.map_cons]
    · simp only [appendSeason, if_neg h0, List.map_cons,
        appendSeason_keys k s rest]

/-- One registry update adds the key exactly when it was absent. -/
theorem regUpdate_keys (reg : List ((String × Nat) × ClubEntry))
    (sg : Sighting) :
    (regUpdate reg sg).map Prod.fst =
      if hasKey sg.key reg then reg.map Prod.fst
      else reg.map Prod.fst ++ [sg.key] := by
  simp only [regUpdate]
  split
  · exact appendSeason_keys _ _ reg
  · simp

/-- Key membership in terms of the key sequence. -/
theorem hasKey_iff_mem (k : String × Nat)
    (reg : List ((String × Nat) × ClubEntry)) :
    hasKey k reg = true ↔ k ∈ reg.map Prod.fst := by
  simp [hasKey, List.any_eq_true, List.mem_map]

/-- One registry update preserves distinctness of keys. -/
theorem regUpdate_keys_nodup (reg : List ((String × Nat) × ClubEntry))
    (sg : Sighting) (h : (reg.map Prod.fst).Nodup) :
    ((regUpdate reg sg).map Prod.fst).Nodup := by
  rw [regUpdate_keys]
  split
  · exact h
  · rename_i hk
    have hmem : sg.key ∉ reg.map Prod.fst := by
      intro hmem
      exact hk ((hasKey_iff_mem sg.key reg).mpr hmem)
    simp [List.nodup_append, h, hmem]

/-- The registry built from any execution order has pairwise-distinct keys:
re-sighting a (competition_id, club_id) never creates a second entity. -/
theorem buildRegistry_keys_nodup (sights : List Sighting) :
    ((buildRegistry sights).map Prod.fst).Nodup := by
  suffices h : ∀ reg, (reg.map Prod.fst).Nodup →
      (((sights.foldl regUpdate reg)).map Prod.fst).Nodup from
    h [] (by simp)
  induction sights with
  | nil => intro reg h; exact h
  | cons sg rest ih =>
    intro reg h
    exact ih _ (regUpdate_keys_nodup reg sg h)

/-- Characterisation of the registry fold: the entry under key `k` is
exactly the aggregate of the sightings of `k`, in execution order. -/
theorem lookupReg_foldl (k : String × Nat) :
    ∀ (sights : List Sighting) (reg : List ((String × Nat) × ClubEntry)),
      lookupReg k (sights.foldl regUpdate reg) =
        (match lookupReg k reg with
         | some e => some { e with season_ids := e.season_ids ++
             ((sights.filter (fun sg => sg.key = k)).map Sighting.season_id) }
         | none => entryOfSightings k (sights.filter (fun sg => sg.key = k)))
  | [], reg => by
    simp only [List.foldl_nil, List.filter_nil, List.map_nil]
    cases hl : lookupReg k reg with
    | none => rfl
    | some e => simp
  | sg :: rest, reg => by
    simp only [List.foldl_cons]
    rw [lookupReg_foldl k rest (regUpdate reg sg)]
    by_cases hkey : sg.key = k
    · rw [List.filter_cons_of_pos (by simp [hkey])]
      by_cases hhas : hasKey sg.key reg
      · have hstep : lookupReg k (regUpdate reg sg)
            = (lookupReg k reg).map
                (fun e => { e with season_ids := e.season_ids ++ [sg.season_id] }) := by
          simp only [regUpdate, if_pos hhas]
          rw [hkey]
          exact lookupReg_appendSeason_eq k sg.season_id reg
        rw [hstep]
        cases hl : lookupReg k reg with
        | none =>
          exfalso
          rw [hkey, hasKey_eq_isSome, hl] at hhas
          exact Bool.noConfusion hhas
        | some e => simp [List.append_assoc]
      · have hlook : lookupReg k reg = none := by
          rw [hkey, hasKey_eq_isSome] at hhas
          cases hl : lookupReg k reg with
          | none => rfl
          | some e => rw [hl] at hhas; exact absurd rfl hhas
        have hstep : lookupReg k (regUpdate reg sg) = some
            { competition_id := sg.competition_id
              club_id := sg.club.club_id
              club_name := sg.club.club_name
              season_ids := [sg.season_id] } := by
          simp only [regUpdate, if_neg hhas]
          rw [lookupReg_append_single, hlook, if_pos hkey]
        rw [hstep, hlook]
        simp [entryOfSightings]
    · rw [List.filter_cons_of_neg (by simp [hkey])]
      have hstep : lookupReg k (regUpdate reg sg) = lookupReg k reg := by
        simp only [regUpdate]
        split
        · exact lookupReg_appendSeason_ne k sg.key sg.season_id hkey reg
        · rw [lookupReg_append_single]
          cases hl : lookupReg k reg with
          | none => simp [if_neg hkey]
          | some e => simp
      rw [hstep]

/-- C6: the first sighting of a (competition_id, club_id) key creates
exactly one registry entity with a singleton season list, each later
sighting of the same key appends its season without creating a second
entity (the key sequence stays duplicate-free and the entry's season list
is exactly the seasons of that key's sightings in execution order), and the
exported row renders the club's season list sorted descending as a
comma-delimited string. -/
theorem registry_entity_unique_and_rendered (sights : List Sighting)
    (k : String × Nat) (hk : ∃ sg ∈ sights, sg.key = k) :
    ((buildRegistry sights).map Prod.fst).Nodup ∧
    ∃ e, lookupReg k (buildRegistry sights) = some e ∧
      e.season_ids
        = (sights.filter (fun sg => sg.key = k)).map Sighting.season_id ∧
      (sortedDesc e.season_ids).Sorted (· ≥ ·) ∧
      List.Perm (sortedDesc e.season_ids) e.season_ids ∧
      (exportRow e).seasons_joined
        = String.intercalate "," (sortedDesc e.season_ids) := by
  refine ⟨buildRegistry_keys_nodup sights, ?_⟩
  have hchar := lookupReg_foldl k sights []
  cases hfl : sights.filter (fun sg => sg.key = k) with
  | nil =>
    exfalso
    obtain ⟨sg, hsg, hkey⟩ := hk
    have hmem : sg ∈ sights.filter (fun sg => sg.key = k) :=
      List.mem_filter.mpr ⟨hsg, by simp [hkey]⟩
    rw [hfl] at hmem
    exact absurd hmem (List.not_mem_nil sg)
  | cons sg0 restf =>
    rw [hfl] at hchar
    refine ⟨_, hchar, rfl, List.sorted_insertionSort _ _,
      List.perm_insertionSort _ _, rfl⟩

/-- C6 witness: the registry theorem on two sightings of the same club in
two seasons of the same competition. -/
theorem registry_entity_unique_and_rendered_witness :
    ((buildRegistry
        [{ competition_id := "GB1", season_id := "2023",
           club := { club_id := 5, club_name := "A" }, roster := [1] },
         { competition_id := "GB1", season_id := "2022",
           club := { club_id := 5, club_name := "A" },
           roster := [2] }]).map Prod.fst).Nodup ∧
    ∃ e, lookupReg ("GB1", 5)
        (buildRegistry
          [{ competition_id := "GB1", season_id := "2023",
             club := { club_id := 5, club_name := "A" }, roster := [1] },
           { competition_id := "GB1", season_id := "2022",
             club := { club_id := 5, club_name := "A" },
             roster := [2] }]) = some e ∧
      e.season_ids
        = ([{ competition_id := "GB1", season_id := "2023",
              club := { club_id := 5, club_name := "A" }, roster := [1] },
            { competition_id := "GB1", season_id := "2022",
              club := { club_id := 5, club_name := "A" },
              roster := [2] }].filter
            (fun sg => sg.key = ("GB1", 5))).map Sighting.season_id ∧
      (sortedDesc e.season_ids).Sorted (· ≥ ·) ∧
      List.Perm (sortedDesc e.season_ids) e.season_ids ∧
      (exportRow e).seasons_joined
        = String.intercalate "," (sortedDesc e.season_ids) :=
  registry_entity_unique_and_rendered
    [{ competition_id := "GB1", season_id := "2023",
       club := { club_id := 5, club_name := "A" }, roster := [1] },
     { competition_id := "GB1", season_id := "2022",
       club := { club_id := 5, club_name := "A" }, roster := [2] }]
    ("GB1", 5) (by decide)

/-- Splitting a successful bind in the `Except` monad. -/
theorem except_bind_ok {α β : Type} (x : Except String α)
    (f : α → Except String β) (b : β)
    (h : (x >>= f) = .ok b) : ∃ a, x = .ok a ∧ f a = .ok b := by
  cases x with
  | error m => exact absurd h (by simp [Bind.bind, Except.bind])
  | ok a => exact ⟨a, rfl, by simpa [Bind.bind, Except.bind] using h⟩

/-- A successful gather means every task succeeded. -/
theorem gatherExcept_ok_forall {α β : Type} (f : α → Except String β) :
    ∀ (l : List α) (r : List β), gatherExcept f l = .ok r →
      ∀ x ∈ l, ∃ y, f x = .ok y
  | [], r => by
    intro _ x hx
    exact absurd hx (List.not_mem_nil x)
  | a :: as, r => by
    intro h x hx
    obtain ⟨y, hy, hrest⟩ := except_bind_ok (f a) _ r h
    rcases List.mem_cons.mp hx with rfl | hx
    · exact ⟨y, hy⟩
    · obtain ⟨ys, hys, _⟩ := except_bind_ok _ _ r hrest
      exact gatherExcept_ok_forall f as ys hys x hx

/-- An `Except` value that is no success is an error. -/
theorem except_not_ok {α : Type} (x : Except String α)
    (h : ∀ v, x ≠ .ok v) : ∃ msg, x = .error msg := by
  cases x with
  | error m => exact ⟨m, rfl⟩
  | ok v => exact absurd rfl (h v)

/-- A successful pair discovery means its club listing and every roster
fetch succeeded. -/
theorem discoverPair_ok (prov : Provider) (cs : String × String)
    (sights : List Sighting) (h : discoverPair prov cs = .ok sights) :
    ∃ clubs, get_clubs (prov.clubsResp cs.1 cs.2) = .ok clubs ∧
      ∀ club ∈ clubs, ∃ roster,
        get_players (prov.playersResp club.club_id cs.2) = .ok roster := by
  obtain ⟨clubs, hc, hrest⟩ := except_bind_ok _ _ _ h
  refine ⟨clubs, hc, ?_⟩
  intro club hclub
  obtain ⟨sg, hsg⟩ := gatherExcept_ok_forall _ clubs sights hrest club hclub
  obtain ⟨roster, hr, _⟩ := except_bind_ok _ _ _ hsg
  exact ⟨roster, hr⟩

/-- C7: a non-200 response to any discovery-stage request — a club listing
for a competition-season pair, or a roster listing for a club of a
successfully listed pair — makes the whole discovery stage abort with an
error (the `SystemExit` raised by `get_clubs` / `get_players`), never a
partial result. -/
theorem discovery_non200_fatal (prov : Provider)
    (pairs : List (String × String))
    (h : (∃ cs ∈ pairs, ∃ st body,
            prov.clubsResp cs.1 cs.2 = .resp st body ∧ st ≠ 200) ∨
         (∃ cs ∈ pairs, ∃ clubs,
            get_clubs (prov.clubsResp cs.1 cs.2) = .ok clubs ∧
            ∃ club ∈ clubs, ∃ st body,
              prov.playersResp club.club_id cs.2 = .resp st body ∧
                st ≠ 200)) :
    ∃ msg, discovery prov pairs = .error msg := by
  apply except_not_ok
  intro sights hok
  obtain ⟨results, hres, _⟩ := except_bind_ok _ _ _ hok
  have hall := gatherExcept_ok_forall _ pairs results hres
  rcases h with ⟨cs, hcs, st, body, hresp, hst⟩ |
    ⟨cs, hcs, clubs, hclubs, club, hclub, st, body, hresp, hst⟩
  · obtain ⟨sgs, hsgs⟩ := hall cs hcs
    obtain ⟨cl, hc, _⟩ := except_bind_ok _ _ _ hsgs
    rw [hresp] at hc
    simp [get_clubs, if_neg hst] at hc
  · obtain ⟨sgs, hsgs⟩ := hall cs hcs
    obtain ⟨clubs2, hc2, hplayers⟩ := discoverPair_ok prov cs sgs hsgs
    rw [hclubs] at hc2
    injection hc2 with hc2
    subst hc2
    obtain ⟨roster, hr⟩ := hplayers club hclub
    rw [hresp] at hr
    simp [get_players, if_neg hst] at hr

/-- C7 witness: a provider answering every club listing with status 500
makes discovery of one pair return an error. -/
theorem discovery_non200_fatal_witness :
    ∃ msg, discovery
        { clubsResp := fun _ _ => .resp 500 [],
          playersResp := fun _ _ => .resp 200 [] }
        [("GB1", "2023")] = .error msg :=
  discovery_non200_fatal
    { clubsResp := fun _ _ => .resp 500 [],
      playersResp := fun _ _ => .resp 200 [] }
    [("GB1", "2023")]
    (Or.inl ⟨("GB1", "2023"), by simp, 500, [], rfl, by decide⟩)

/-- Membership in the accumulated player-id set. -/
theorem mem_playerIdSet_aux (p : Nat) :
    ∀ (sights : List Sighting) (acc : Finset Nat),
      (p ∈ sights.foldl (fun a sg => a ∪ sg.roster.toFinset) acc ↔
        p ∈ acc ∨ ∃ sg ∈ sights, p ∈ sg.roster)
  | [], acc => by simp
  | sg :: rest, acc => by
    simp only [List.foldl_cons]
    rw [mem_playerIdSet_aux p rest]
    simp only [Finset.mem_union, List.mem_toFinset, List.exists_mem_cons_iff]
    tauto

/-- The player-id set is insensitive to the order in which rosters are
added: any two interleavings produce the same set. -/
theorem playerIdSet_perm (l1 l2 : List Sighting) (h : List.Perm l1 l2) :
    playerIdSet l1 = playerIdSet l2 := by
  ext p
  simp only [playerIdSet, mem_playerIdSet_aux, Finset.not_mem_empty, false_or]
  constructor
  · rintro ⟨sg, hsg, hp⟩
    exact ⟨sg, h.mem_iff.mp hsg, hp⟩
  · rintro ⟨sg, hsg, hp⟩
    exact ⟨sg, h.mem_iff.mpr hsg, hp⟩

/-- C8 counterexample: with a fixed set of sightings, two interleavings of
the same discovery run can register the same club under a different
`club_name` — the dict stores the name from whichever sighting of the key
was processed first, which is execution-order dependent. -/
theorem discovery_order_changes_club_name :
    List.Perm
      [({ competition_id := "C", season_id := "2023",
          club := { club_id := 1, club_name := "A" }, roster := [] } : Sighting),
       { competition_id := "C", season_id := "2022",
         club := { club_id := 1, club_name := "B" }, roster := [] }]
      [{ competition_id := "C", season_id := "2022",
         club := { club_id := 1, club_name := "B" }, roster := [] },
       { competition_id := "C", season_id := "2023",
         club := { club_id := 1, club_name := "A" }, roster := [] }] ∧
    (lookupReg ("C", 1)
        (buildRegistry
          [{ competition_id := "C", season_id := "2023",
             club := { club_id := 1, club_name := "A" }, roster := [] },
           { competition_id := "C", season_id := "2022",
             club := { club_id := 1, club_name := "B" },
             roster := [] }])).map ClubEntry.club_name = some "A" ∧
    (lookupReg ("C", 1)
        (buildRegistry
          [{ competition_id := "C", season_id := "2022",
             club := { club_id := 1, club_name := "B" }, roster := [] },
           { competition_id := "C", season_id := "2023",
             club := { club_id := 1, club_name := "A" },
             roster := [] }])).map ClubEntry.club_name = some "B" :=
  ⟨List.Perm.swap
    ({ competition_id := "C", season_id := "2022",
       club := { club_id := 1, club_name := "B" }, roster := [] } : Sighting)
    ({ competition_id := "C", season_id := "2023",
       club := { club_id := 1, club_name := "A" }, roster := [] } : Sighting)
    [],
   rfl, rfl⟩

/-- C8 amended: for a fixed set of provider responses, discovery yields the
same deduplicated PlayerId set and the same registry keys regardless of
execution order, and for each key the same competition_id, club_id and the
same multiset of season_ids; the stored club_name also agrees whenever
every sighting of that key carries the same name (it is taken from the
first-processed sighting, so it may differ when the provider reports
different names for the same club across seasons). -/
theorem discovery_deterministic_up_to_names (l1 l2 : List Sighting)
    (hperm : List.Perm l1 l2) :
    playerIdSet l1 = playerIdSet l2 ∧
    (∀ k : String × Nat, (lookupReg k (buildRegistry l1)).isSome
        = (lookupReg k (buildRegistry l2)).isSome) ∧
    (∀ (k : String × Nat) (e1 e2 : ClubEntry),
      lookupReg k (buildRegistry l1) = some e1 →
      lookupReg k (buildRegistry l2) = some e2 →
      e1.competition_id = k.1 ∧ e2.competition_id = k.1 ∧
      e1.club_id = k.2 ∧ e2.club_id = k.2 ∧
      (e1.season_ids : Multiset String) = (e2.season_ids : Multiset String) ∧
      ((∀ sg ∈ l1, ∀ sgb ∈ l1, sg.key = k → sgb.key = k →
          sg.club.club_name = sgb.club.club_name) →
        e1.club_name = e2.club_name)) := by
  have hchar1 : ∀ k : String × Nat, lookupReg k (buildRegistry l1)
      = entryOfSightings k (l1.filter (fun sg => sg.key = k)) :=
    fun k => lookupReg_foldl k l1 []
  have hchar2 : ∀ k : String × Nat, lookupReg k (buildRegistry l2)
      = entryOfSightings k (l2.filter (fun sg => sg.key = k)) :=
    fun k => lookupReg_foldl k l2 []
  refine ⟨playerIdSet_perm l1 l2 hperm, ?_, ?_⟩
  · intro k
    have hfilter := hperm.filter (fun sg => decide (sg.key = k))
    rw [hchar1 k, hchar2 k]
    cases h1 : l1.filter (fun sg => sg.key = k) with
    | nil =>
      rw [h1] at hfilter
      have h2 := hfilter.symm.eq_nil
      rw [h2]
    | cons sg0 restf =>
      rw [h1] at hfilter
      cases h2 : l2.filter (fun sg => sg.key = k) with
      | nil =>
        rw [h2] at hfilter
        exact absurd hfilter.eq_nil (by simp)
      | cons sg0b restfb => rfl
  · intro k e1 e2 h1 h2
    have hfilter := hperm.filter (fun sg => decide (sg.key = k))
    rw [hchar1 k] at h1
    rw [hchar2 k] at h2
    cases hf1 : l1.filter (fun sg => sg.key = k) with
    | nil => rw [hf1] at h1; exact absurd h1 (by simp [entryOfSightings])
    | cons sg0 restf =>
    cases hf2 : l2.filter (fun sg => sg.key = k) with
    | nil => rw [hf2] at h2; exact absurd h2 (by simp [entryOfSightings])
    | cons sg0b restfb =>
    rw [hf1] at h1 hfilter
    rw [hf2] at h2 hfilter
    simp only [entryOfSightings, Option.some.injEq] at h1 h2
    have hsg0 : sg0 ∈ l1.filter (fun sg => sg.key = k) := by
      rw [hf1]; exact List.mem_cons_self sg0 restf
    have hsg0b : sg0b ∈ l2.filter (fun sg => sg.key = k) := by
      rw [hf2]; exact List.mem_cons_self sg0b restfb
    have hkey0 : sg0.key = k := by
      have := (List.mem_filter.mp hsg0).2
      simpa using this
    have hkey0b : sg0b.key = k := by
      have := (List.mem_filter.mp hsg0b).2
      simpa using this
    have hmem0 : sg0 ∈ l1 := (List.mem_filter.mp hsg0).1
    have hmem0b : sg0b ∈ l1 :=
      hperm.mem_iff.mpr ((List.mem_filter.mp hsg0b).1)
    subst h1
    subst h2
    refine ⟨?_, ?_, ?_, ?_, ?_, ?_⟩
    · exact congrArg Prod.fst hkey0
    · exact congrArg Prod.fst hkey0b
    · exact congrArg Prod.snd hkey0
    · exact congrArg Prod.snd hkey0b
    · have hmap : List.Perm
          ((sg0 :: restf).map Sighting.season_id)
          ((sg0b :: restfb).map Sighting.season_id) :=
        hfilter.map Sighting.season_id
      simpa [Multiset.coe_eq_coe] using Multiset.coe_eq_coe.mpr hmap
    · intro hagree
      exact hagree sg0 hmem0 sg0b hmem0b hkey0 hkey0b

/-- C8 witness: the amended determinism theorem on a two-sighting run and
its reversed interleaving. -/
theorem discovery_deterministic_up_to_names_witness :
    playerIdSet
        [{ competition_id := "C", season_id := "2023",
           club := { club_id := 1, club_name := "A" }, roster := [7] },
         { competition_id := "C", season_id := "2022",
           club := { club_id := 1, club_name := "A" }, roster := [8] }]
      = playerIdSet
        [{ competition_id := "C", season_id := "2022",
           club := { club_id := 1, club_name := "A" }, roster := [8] },
         { competition_id := "C", season_id := "2023",
           club := { club_id := 1, club_name := "A" }, roster := [7] }] ∧
    (∀ k : String × Nat,
      (lookupReg k (buildRegistry
        [{ competition_id := "C", season_id := "2023",
           club := { club_id := 1, club_name := "A" }, roster := [7] },
         { competition_id := "C", season_id := "2022",
           club := { club_id := 1, club_name := "A" },
           roster := [8] }])).isSome
      = (lookupReg k (buildRegistry
        [{ competition_id := "C", season_id := "2022",
           club := { club_id := 1, club_name := "A" }, roster := [8] },
         { competition_id := "C", season_id := "2023",
           club := { club_id := 1, club_name := "A" },
           roster := [7] }])).isSome) ∧
    (∀ (k : String × Nat) (e1 e2 : ClubEntry),
      lookupReg k (buildRegistry
        [{ competition_id := "C", season_id := "2023",
           club := { club_id := 1, club_name := "A" }, roster := [7] },
         { competition_id := "C", season_id := "2022",
           club := { club_id := 1, club_name := "A" },
           roster := [8] }]) = some e1 →
      lookupReg k (buildRegistry
        [{ competition_id := "C", season_id := "2022",
           club := { club_id := 1, club_name := "A" }, roster := [8] },
         { competition_id := "C", season_id := "2023",
           club := { club_id := 1, club_name := "A" },
           roster := [7] }]) = some e2 →
      e1.competition_id = k.1 ∧ e2.competition_id = k.1 ∧
      e1.club_id = k.2 ∧ e2.club_id = k.2 ∧
      (e1.season_ids : Multiset String) = (e2.season_ids : Multiset String) ∧
      ((∀ sg ∈
          [({ competition_id := "C", season_id := "2023",
              club := { club_id := 1, club_name := "A" },
              roster := [7] } : Sighting),
           { competition_id := "C", season_id := "2022",
             club := { club_id := 1, club_name := "A" }, roster := [8] }],
        ∀ sgb ∈
          [({ competition_id := "C", season_id := "2023",
              club := { club_id := 1, club_name := "A" },
              roster := [7] } : Sighting),
           { competition_id := "C", season_id := "2022",
             club := { club_id := 1, club_name := "A" }, roster := [8] }],
          sg.key = k → sgb.key = k →
          sg.club.club_name = sgb.club.club_name) →
        e1.club_name = e2.club_name)) :=
  discovery_deterministic_up_to_names
    [{ competition_id := "C", season_id := "2023",
       club := { club_id := 1, club_name := "A" }, roster := [7] },
     { competition_id := "C", season_id := "2022",
       club := { club_id := 1, club_name := "A" }, roster := [8] }]
    [{ competition_id := "C", season_id := "2022",
       club := { club_id := 1, club_name := "A" }, roster := [8] },
     { competition_id := "C", season_id := "2023",
       club := { club_id := 1, club_name := "A" }, roster := [7] }]
    (List.Perm.swap
      ({ competition_id := "C", season_id := "2022",
         club := { club_id := 1, club_name := "A" }, roster := [8] } : Sighting)
      ({ competition_id := "C", season_id := "2023",
         club := { club_id := 1, club_name := "A" }, roster := [7] } : Sighting)
      [])

/-- Invariant of the detail-stage scheduler: the free permits and the tasks
inside the semaphore block always sum to the semaphore's initial value,
across every batch of the run (the semaphore is created once and never
reset). -/
theorem collReach_sem_invariant (n : Nat) (batches : List Nat)
    (s : CollState) (h : CollReach (initColl n batches) s) :
    s.sem + s.running = n := by
  induction h with
  | refl =>
    cases batches with
    | nil => rfl
    | cons b bs => rfl
  | step hreach hstep ih =>
    cases hstep with
    | start hp hs => dsimp only; omega
    | finish hr => dsimp only; omega
    | nextBatch b bs hp hr hrest => dsimp only; omega

/-- C9: at no point during detail collection are more than
`SEMAPHORE_LIMIT = 100` player-detail fetch groups inside the semaphore
block, for any batch structure of the player population; the bound is
enforced by the single semaphore created once in `build_player_dataset`
and carried across all batches, never reset per batch. -/
theorem detail_concurrency_bound (batches : List Nat) (s : CollState)
    (h : CollReach (initColl SEMAPHORE_LIMIT batches) s) :
    s.running ≤ SEMAPHORE_LIMIT ∧ SEMAPHORE_LIMIT = 100 := by
  have hinv := collReach_sem_invariant SEMAPHORE_LIMIT batches s h
  exact ⟨by omega, rfl⟩

/-- C9 witness: the bound at a concrete reachable state — the initial state
of a run with batch sizes [1600, 3] — is at most 100. -/
theorem detail_concurrency_bound_witness :
    (initColl SEMAPHORE_LIMIT [1600, 3]).running ≤ SEMAPHORE_LIMIT ∧
    SEMAPHORE_LIMIT = 100 :=
  detail_concurrency_bound [1600, 3] (initColl SEMAPHORE_LIMIT [1600, 3])
    CollReach.refl

end PullingDataAsync
